import Mathlib

/-!
Verification of the asynchronous batch-deletion pipeline of the url-shortener
service (internal/app/service/service.go), as a shallow embedding in Lean.

The embedding models:
  * the deletion request message type (models.ShortURLChannelMessage);
  * one validation worker's processing loop (validateUser), as a pure
    function from the sequence of requests the worker dequeues to the
    worker's event trace and the requests it leaves unconsumed;
  * the ten-worker fan-out stage (deletionFanOut), as FIFO consumption of
    the shared queue with a live-worker counter — a worker carries no state
    between loop iterations, so workers are interchangeable and only the
    number of still-running workers matters for which requests get consumed;
  * the flush loop (FlushDeletions), as a step function on the private
    buffer driven by the two events of its select statement;
  * the structural side of NewService / ScheduleDeletionOfBatch: which
    channels are allocated (a gensym counter stands for the channel
    identity that a Go `make(chan ...)` creates) and which goroutines are
    spawned by each call;
  * the select-based send race against the shutdown signal shared by the
    generator, the worker forward step and the fan-in forwarders.
-/

namespace UrlShortener

/-- Embedding of models.ShortURLChannelMessage: one deletion request.
The Ctx field carries only cancellation/deadline data and is not inspected
by the pipeline logic, so it is omitted. -/
structure ShortURLChannelMessage where
  shortURL : String
  userID : String
deriving DecidableEq, Repr

/-- Result of storage.Repository.GetUserIDByShortURL: the Go pair
(userID string, err error). Every repository implementation
(MemoryRepo, DBRepo) returns an empty userID whenever err is non-nil,
but the service code handles the two components independently, so the
embedding keeps both. -/
structure LookupResult where
  userID : String
  err : Option String
deriving DecidableEq, Repr

/-- Observable actions of one validateUser worker, in program order:
the two logger calls in the error / not-found branches, the send of a
validated key on the worker's output channel, and the "not the owner" log. -/
inductive WorkerEvent where
  | lookupError (shortURL : String) (e : String)
  | notFound (shortURL : String)
  | forwarded (shortURL : String)
  | notOwner (shortURL : String)
deriving DecidableEq, Repr

/-- The log events emitted for one lookup result before the control-flow
checks: the source logs "cannot get user ID" exactly when err != nil and
then falls through (there is no continue in that branch). -/
def errEvents (shortURL : String) (res : LookupResult) : List WorkerEvent :=
  match res.err with
  | some e => [WorkerEvent.lookupError shortURL e]
  | none => []

/-- Embedding of the loop body of ShortURLService.validateUser for the
sequence of requests this worker dequeues from the shared channel, under the
assumption that the shutdown signal never fires and every send completes.
Returns the worker's event trace and the suffix of its input that the worker
never consumes (because a `return` ended its loop); those requests stay in
the shared channel for other workers. -/
def validateUserTrace (lookup : String → LookupResult) :
    List ShortURLChannelMessage → List WorkerEvent × List ShortURLChannelMessage
  | [] => ([], [])
  | data :: rest =>
    let res := lookup data.shortURL
    if res.userID = "" then
      (errEvents data.shortURL res ++ [WorkerEvent.notFound data.shortURL], rest)
    else if res.userID = data.userID then
      let t := validateUserTrace lookup rest
      (errEvents data.shortURL res ++ [WorkerEvent.forwarded data.shortURL] ++ t.1, t.2)
    else
      let t := validateUserTrace lookup rest
      (errEvents data.shortURL res ++ [WorkerEvent.notOwner data.shortURL] ++ t.1, t.2)

/-- The keys a worker sent downstream, read off its event trace. -/
def forwardedKeys (evs : List WorkerEvent) : List String :=
  evs.filterMap fun e =>
    match e with
    | WorkerEvent.forwarded s => some s
    | _ => none

/-- Embedding of the whole fan-out stage (deletionFanOut spawns `live`
validateUser workers, all ranging over the one shared channel). The shared
channel hands requests out in FIFO order; a worker holds no state between
iterations of its loop, so the identity of the worker that takes a request
is irrelevant and only the count of live workers matters. A request whose
owner lookup returns an empty userID makes the worker that consumed it
return, decrementing the live count; once no worker is live the remaining
requests are never consumed. Returns the validated keys sent downstream
(across all workers) and the requests left in the channel forever. -/
def fanOutRun (lookup : String → LookupResult) :
    Nat → List ShortURLChannelMessage → List String × List ShortURLChannelMessage
  | _, [] => ([], [])
  | 0, rest => ([], rest)
  | live + 1, data :: rest =>
    let res := lookup data.shortURL
    if res.userID = "" then
      fanOutRun lookup live rest
    else if res.userID = data.userID then
      let t := fanOutRun lookup (live + 1) rest
      (data.shortURL :: t.1, t.2)
    else
      fanOutRun lookup (live + 1) rest

/-- The two alternatives of the select statement in FlushDeletions: a
validated key arrives on deleteMsgChanOut, or the ticker fires. A tick
carries the outcome the storage backend would give to the
SetURLsInactive call issued on that tick (`true` = nil error). These are
the only alternatives of that select: the shutdown signal is not among
them. -/
inductive FlushEvent where
  | recv (key : String)
  | tick (storageOk : Bool)
deriving DecidableEq, Repr

/-- Result of one iteration of the FlushDeletions for-select loop:
either the loop continues with a new buffer, having issued at most one
SetURLsInactive call (recorded with its outcome), or the loop exits.
The `exits` constructor exists to state that no iteration produces it:
every branch of the source loop ends in `continue` or falls through to
the next iteration. -/
inductive LoopControl where
  | continues (buf : List String) (call : Option (List String × Bool))
  | exits
deriving DecidableEq, Repr

/-- Embedding of one iteration of ShortURLService.FlushDeletions:
a received key is appended to the private shortURLsToDelete buffer; a tick
with an empty buffer issues no call; a tick with a non-empty buffer issues
one SetURLsInactive call carrying the whole buffer, clearing it on success
and retaining it unchanged on failure. -/
def flushIteration (buf : List String) : FlushEvent → LoopControl
  | FlushEvent.recv k => LoopControl.continues (buf ++ [k]) none
  | FlushEvent.tick ok =>
    if buf = [] then LoopControl.continues buf none
    else if ok then LoopControl.continues [] (some (buf, true))
    else LoopControl.continues buf (some (buf, false))

/-- Iterated flush loop over a finite event sequence: final buffer and the
SetURLsInactive calls issued, each with its outcome. -/
def flushRun (buf : List String) : List FlushEvent → List String × List (List String × Bool)
  | [] => (buf, [])
  | e :: evs =>
    match flushIteration buf e with
    | LoopControl.continues buf₂ call =>
      let t := flushRun buf₂ evs
      (t.1, call.toList ++ t.2)
    | LoopControl.exits => (buf, [])

/-- End-to-end run of the pipeline for one batch under the no-shutdown
assumption: the fan-out stage validates the batch, the fan-in forwards every
validated key into the flush loop's input channel, and then `ticks` timer
fires happen (each with its storage outcome). Returns the SetURLsInactive
calls issued. -/
def pipelineCalls (lookup : String → LookupResult)
    (msgs : List ShortURLChannelMessage) (ticks : List Bool) : List (List String × Bool) :=
  let keys := (fanOutRun lookup 10 msgs).1
  (flushRun [] (keys.map FlushEvent.recv ++ ticks.map FlushEvent.tick)).2

/-- The configuration fields the deletion pipeline reads
(internal/app/config/config.go), with the defaults of their envDefault
struct tags. -/
structure Config where
  defaultChannelsBufferSize : Nat
  deletionBufferFlushIntervalSeconds : Nat
deriving DecidableEq, Repr

/-- The envDefault values of config.go: DEFAULT_CHANNELS_BUFFER_SIZE
defaults to 1024 and DELETION_BUFFER_FLUSH_INTERVAL_SECONDS to 10. -/
def defaultSettings : Config :=
  { defaultChannelsBufferSize := 1024, deletionBufferFlushIntervalSeconds := 10 }

/-- The goroutines the service code spawns, identified structurally:
the flush loop started in NewService, and for each ScheduleDeletionOfBatch
call a generator, the validateUser workers (tagged by the output channel
each one allocates) and the fan-in forwarders (tagged by the worker output
channel each one drains). -/
inductive GoTask where
  | flushDeletions
  | generator
  | validateWorker (outputChan : Nat)
  | fanInForwarder (sourceChan : Nat)
deriving DecidableEq, Repr

/-- Embedding of the ShortURLService struct fields relevant to the
pipeline. Channels are named by the allocation counter value at their
`make(chan ...)` call, so distinct allocations are distinct channels; the
two buffered channels carry their capacities. -/
structure ServiceState where
  deleteMsgChanIn : Nat
  deleteMsgChanOut : Nat
  doneChan : Nat
  chanInCap : Nat
  chanOutCap : Nat
deriving DecidableEq, Repr

/-- Embedding of NewService: allocates deleteMsgChanIn and deleteMsgChanOut,
both with capacity config.Settings.DefaultChannelsBufferSize, stores the
caller's doneChan, and spawns exactly one goroutine, FlushDeletions.
Returns the service, the goroutines spawned at construction, and the new
allocation counter. -/
def NewService (cfg : Config) (doneChan : Nat) (alloc : Nat) :
    ServiceState × List GoTask × Nat :=
  (⟨alloc, alloc + 1, doneChan, cfg.defaultChannelsBufferSize, cfg.defaultChannelsBufferSize⟩,
   [GoTask.flushDeletions], alloc + 2)

/-- A running validateUser worker: the channel it ranges over (always the
service's shared deleteMsgChanIn) and the unbuffered validateRes channel it
allocated for its output. -/
structure WorkerHandle where
  inputChan : Nat
  outputChan : Nat
deriving DecidableEq, Repr

/-- Embedding of the channel allocation in ShortURLService.validateUser:
`validateRes := make(chan string)` allocates a fresh channel; the worker
reads the service's shared deleteMsgChanIn. -/
def validateUserSpawn (s : ServiceState) (alloc : Nat) : WorkerHandle × Nat :=
  (⟨s.deleteMsgChanIn, alloc⟩, alloc + 1)

/-- numWorkers in ShortURLService.deletionFanOut. -/
def numWorkers : Nat := 10

/-- The fan-out loop body: spawn `n` validateUser workers in order,
threading the allocation counter. -/
def spawnWorkers (s : ServiceState) : Nat → Nat → List WorkerHandle × Nat
  | 0, alloc => ([], alloc)
  | n + 1, alloc =>
    let h := validateUserSpawn s alloc
    let t := spawnWorkers s n h.2
    (h.1 :: t.1, t.2)

/-- Embedding of ShortURLService.deletionFanOut: creates numWorkers fresh
validateUser workers, every one draining the shared deleteMsgChanIn. -/
def deletionFanOut (s : ServiceState) (alloc : Nat) : List WorkerHandle × Nat :=
  spawnWorkers s numWorkers alloc

/-- Embedding of the structural effect of one ShortURLService.
ScheduleDeletionOfBatch call: it runs deletionGenerator (one goroutine),
then deletionFanOut (a fresh pool of numWorkers workers and their output
channels), then deletionFanIn (one forwarder goroutine per worker channel).
It allocates no new service-level channel: the generator feeds the shared
deleteMsgChanIn and the forwarders feed the shared deleteMsgChanOut.
Returns the worker handles, the goroutines spawned by this call, and the
new allocation counter. -/
def ScheduleDeletionOfBatch (s : ServiceState) (alloc : Nat) :
    List WorkerHandle × List GoTask × Nat :=
  let t := deletionFanOut s alloc
  (t.1,
   GoTask.generator
     :: (t.1.map fun h => GoTask.validateWorker h.outputChan)
     ++ (t.1.map fun h => GoTask.fanInForwarder h.outputChan),
   t.2)

/-- Possible outcomes of one send attempt inside a pipeline stage. The
`raisesError` constructor exists so that "no send reports an error" is a
statement about the semantics: no outcome constructs it, because the
source's select statements have no error branch. -/
inductive StageOutcome (α : Type) where
  | delivered (a : α)
  | stopped
  | blocked
  | raisesError
deriving DecidableEq, Repr

/-- Semantics of the select statement shared verbatim by
deletionGenerator, the forward step of validateUser and deletionFanIn:
  select { case <-s.doneChan: return; case ch <- item: }.
`done` is whether the shutdown channel is closed; `ready` is whether the
target channel can accept the item now (buffer space, or for an unbuffered
channel a waiting receiver). When both cases are ready Go chooses between
them nondeterministically, so the result is the list of possible outcomes
of this attempt; when neither is ready the goroutine waits. -/
def sendRaceOutcomes {α : Type} (done ready : Bool) (item : α) : List (StageOutcome α) :=
  (if done then [StageOutcome.stopped] else [])
    ++ (if ready then [StageOutcome.delivered item] else [])
    ++ (if !done && !ready then [StageOutcome.blocked] else [])

/-- The send attempted by deletionGenerator for one batch item: into the
shared deleteMsgChanIn, which is ready exactly when its queue holds fewer
items than its capacity. -/
def deletionGeneratorSend (s : ServiceState) (done : Bool)
    (queued : List ShortURLChannelMessage) (item : ShortURLChannelMessage) :
    List (StageOutcome ShortURLChannelMessage) :=
  sendRaceOutcomes done (decide (queued.length < s.chanInCap)) item

/-- The send attempted by a validateUser worker for a validated key: into
its unbuffered validateRes channel, ready exactly when the fan-in forwarder
for that channel is waiting to receive. -/
def validateUserForward (done receiverReady : Bool) (key : String) :
    List (StageOutcome String) :=
  sendRaceOutcomes done receiverReady key

/-- The send attempted by a deletionFanIn forwarder for one key: into the
shared deleteMsgChanOut, ready exactly when its queue holds fewer items
than its capacity. -/
def deletionFanInForward (s : ServiceState) (done : Bool)
    (queued : List String) (key : String) : List (StageOutcome String) :=
  sendRaceOutcomes done (decide (queued.length < s.chanOutCap)) key

/-- A concrete owner-lookup table used to evaluate the pipeline: the short
URL "owned" was created by user "u1"; every other key is unknown to storage
(empty owner, nil error), as MemoryRepo and DBRepo return for a missing
row. -/
def lkNF : String → LookupResult := fun s =>
  if s = "owned" then ⟨"u1", none⟩ else ⟨"", none⟩

/-- A concrete owner lookup in which the storage backend fails for the key
"broken" — returning an empty owner ID alongside the error, as every
Repository implementation does — and resolves "owned" to user "u1". -/
def lkErr : String → LookupResult := fun s =>
  if s = "broken" then ⟨"", some "connection refused"⟩
  else if s = "owned" then ⟨"u1", none⟩
  else ⟨"", none⟩

/-- A batch of eleven deletion requests: ten short URLs unknown to storage
followed by one that user "u1" owns and asks to delete. -/
def deadWorkersBatch : List ShortURLChannelMessage :=
  [⟨"n0", "u1"⟩, ⟨"n1", "u1"⟩, ⟨"n2", "u1"⟩, ⟨"n3", "u1"⟩, ⟨"n4", "u1"⟩,
   ⟨"n5", "u1"⟩, ⟨"n6", "u1"⟩, ⟨"n7", "u1"⟩, ⟨"n8", "u1"⟩, ⟨"n9", "u1"⟩,
   ⟨"owned", "u1"⟩]

/-- A concrete service built with the default configuration (doneChan
allocated by the caller as channel 100, allocation counter starting at 0). -/
def service₀ : ServiceState := (NewService defaultSettings 100 0).1

/-- Receiving events only append to the buffer and issue no call, so a
run that starts with receives is the run on the enlarged buffer. -/
theorem flushRun_recvs (ks : List String) :
    ∀ (buf : List String) (evs : List FlushEvent),
      flushRun buf (ks.map FlushEvent.recv ++ evs) = flushRun (buf ++ ks) evs := by
  induction ks with
  | nil => intro buf evs; simp
  | cons k ks ih =>
    intro buf evs
    simp only [List.map_cons, List.cons_append]
    show (let t := flushRun (buf ++ [k]) (ks.map FlushEvent.recv ++ evs); (t.1, t.2))
      = flushRun (buf ++ (k :: ks)) evs
    rw [ih (buf ++ [k]) evs]
    simp

/-- A flush loop whose buffer is empty and that only sees timer ticks
issues no SetURLsInactive call and keeps its buffer empty. -/
theorem flushRun_ticks_nil (ticks : List Bool) :
    flushRun [] (ticks.map FlushEvent.tick) = ([], []) := by
  induction ticks with
  | nil => rfl
  | cons ok ticks ih =>
    simp only [List.map_cons]
    show (let t := flushRun [] (ticks.map FlushEvent.tick); (t.1, t.2)) = ([], [])
    rw [ih]

/-- At-least-once invariant of the flush loop: a key in the buffer either
is still in the buffer at the end of the run or was included in some
SetURLsInactive call that succeeded. -/
theorem mem_buf_flushRun (evs : List FlushEvent) :
    ∀ (buf : List String) (k : String), k ∈ buf →
      k ∈ (flushRun buf evs).1 ∨
        ∃ c, (c, true) ∈ (flushRun buf evs).2 ∧ k ∈ c := by
  induction evs with
  | nil => intro buf k hk; exact Or.inl hk
  | cons e evs ih =>
    intro buf k hk
    cases e with
    | recv k₂ =>
      have hk₂ : k ∈ buf ++ [k₂] := List.mem_append_left _ hk
      rcases ih (buf ++ [k₂]) k hk₂ with h | ⟨c, hc, hkc⟩
      · exact Or.inl (by simpa [flushRun, flushIteration] using h)
      · exact Or.inr ⟨c, by simpa [flushRun, flushIteration] using hc, hkc⟩
    | tick ok =>
      have hne : buf ≠ [] := by
        intro h
        rw [h] at hk
        exact (List.not_mem_nil k) hk
      cases ok with
      | true =>
        refine Or.inr ⟨buf, ?_, hk⟩
        simp [flushRun, flushIteration, hne]
      | false =>
        rcases ih buf k hk with h | ⟨c, hc, hkc⟩
        · exact Or.inl (by simpa [flushRun, flushIteration, hne] using h)
        · refine Or.inr ⟨c, ?_, hkc⟩
          simpa [flushRun, flushIteration, hne] using hc

/-- The lengths and channels of the fan-out's worker pool: spawning n
workers from allocation counter a yields n handles, every one draining the
service's shared deleteMsgChanIn, with output channels a, a+1, ..., a+n-1,
and leaves the counter at a + n. -/
theorem spawnWorkers_spec (s : ServiceState) :
    ∀ (n a : Nat),
      (spawnWorkers s n a).1.length = n ∧
      (spawnWorkers s n a).2 = a + n ∧
      (∀ h, h ∈ (spawnWorkers s n a).1 →
        h.inputChan = s.deleteMsgChanIn ∧ a ≤ h.outputChan ∧ h.outputChan < a + n) := by
  intro n
  induction n with
  | zero => intro a; refine ⟨rfl, rfl, ?_⟩; intro h hmem; cases hmem
  | succ n ih =>
    intro a
    refine ⟨?_, ?_, ?_⟩
    · show ((⟨s.deleteMsgChanIn, a⟩ : WorkerHandle) :: (spawnWorkers s n (a + 1)).1).length = n + 1
      rw [List.length_cons, (ih (a + 1)).1]
    · show (spawnWorkers s n (a + 1)).2 = a + (n + 1)
      rw [(ih (a + 1)).2.1]
      omega
    · intro h hmem
      rcases List.mem_cons.mp hmem with heq | htail
      · subst heq
        simp only [validateUserSpawn]
        exact ⟨trivial, Nat.le_refl a, by omega⟩
      · rcases (ih (a + 1)).2.2 h htail with ⟨h1, h2, h3⟩
        exact ⟨h1, by omega, by omega⟩

/-- When the shutdown signal has fired, the select race never blocks. -/
theorem sendRace_done_not_blocked {α : Type} (b : Bool) (x : α) :
    StageOutcome.blocked ∉ sendRaceOutcomes true b x := by
  cases b <;> simp [sendRaceOutcomes]

/-- When the shutdown signal has fired, stopping (and so dropping the
in-flight item) is a possible outcome of the select race. -/
theorem sendRace_done_stopped {α : Type} (b : Bool) (x : α) :
    StageOutcome.stopped ∈ sendRaceOutcomes true b x := by
  cases b <;> simp [sendRaceOutcomes]

/-- Claim C2: when a validation worker's owner lookup returns an empty
owner ID for a request, the worker logs the not-found event and terminates
its whole processing loop: every later request is left unconsumed by that
worker and the worker forwards nothing. -/
theorem C2_not_found_terminates_worker (lookup : String → LookupResult)
    (m : ShortURLChannelMessage) (rest : List ShortURLChannelMessage)
    (h : (lookup m.shortURL).userID = "") :
    (validateUserTrace lookup (m :: rest)).2 = rest ∧
    WorkerEvent.notFound m.shortURL ∈ (validateUserTrace lookup (m :: rest)).1 ∧
    ∀ k, WorkerEvent.forwarded k ∉ (validateUserTrace lookup (m :: rest)).1 := by
  have htr : validateUserTrace lookup (m :: rest)
      = (errEvents m.shortURL (lookup m.shortURL)
          ++ [WorkerEvent.notFound m.shortURL], rest) := by
    simp [validateUserTrace, h]
  refine ⟨by rw [htr], by rw [htr]; simp, ?_⟩
  intro k
  rw [htr]
  cases herr : (lookup m.shortURL).err with
  | none => simp [errEvents, herr]
  | some e => simp [errEvents, herr]

/-- Witness for C2: with storage lkNF, the worker that dequeues the
unknown URL "n0" logs not-found and stops, leaving the owned request
behind it unconsumed. -/
theorem C2_not_found_terminates_worker_w :
    (validateUserTrace lkNF [⟨"n0", "u1"⟩, ⟨"owned", "u1"⟩]).2 = [⟨"owned", "u1"⟩] ∧
    WorkerEvent.notFound "n0" ∈ (validateUserTrace lkNF [⟨"n0", "u1"⟩, ⟨"owned", "u1"⟩]).1 :=
  ⟨(C2_not_found_terminates_worker lkNF ⟨"n0", "u1"⟩ [⟨"owned", "u1"⟩] (by decide)).1,
   (C2_not_found_terminates_worker lkNF ⟨"n0", "u1"⟩ [⟨"owned", "u1"⟩] (by decide)).2.1⟩

/-- Claim C3 counterexample: the storage lkErr fails with an error for the
key "broken"; the worker that dequeues that request does not continue to
the next request of the queue — the owned request queued right behind it
is left unconsumed and nothing is forwarded, because the worker's loop
terminates after the failing lookup. -/
theorem C3_lookup_error_counterexample :
    (lkErr "broken").err = some "connection refused" ∧
    (lkErr "owned").userID = "u1" ∧
    validateUserTrace lkErr [⟨"broken", "u1"⟩, ⟨"owned", "u1"⟩]
      = ([WorkerEvent.lookupError "broken" "connection refused",
          WorkerEvent.notFound "broken"], [⟨"owned", "u1"⟩]) ∧
    (validateUserTrace lkErr [⟨"broken", "u1"⟩, ⟨"owned", "u1"⟩]).2 ≠ [] := by
  refine ⟨rfl, rfl, by decide, by decide⟩

/-- Claim C3 (amended): when the owner lookup fails with an error — which
every Repository implementation reports together with an empty owner ID —
the worker logs the error but does not skip to the next request: the error
branch only logs and falls through to the empty-owner check, so the worker
then logs not-found and terminates its processing loop, leaving the rest
of its queue unconsumed. -/
theorem C3_lookup_error_terminates (lookup : String → LookupResult)
    (m : ShortURLChannelMessage) (rest : List ShortURLChannelMessage) (e : String)
    (h : lookup m.shortURL = ⟨"", some e⟩) :
    validateUserTrace lookup (m :: rest)
      = ([WorkerEvent.lookupError m.shortURL e, WorkerEvent.notFound m.shortURL], rest) := by
  simp [validateUserTrace, errEvents, h]

/-- Witness for the amended C3 at a concrete input. -/
theorem C3_lookup_error_terminates_w :
    validateUserTrace lkErr [⟨"broken", "u2"⟩]
      = ([WorkerEvent.lookupError "broken" "connection refused",
          WorkerEvent.notFound "broken"], []) :=
  C3_lookup_error_terminates lkErr ⟨"broken", "u2"⟩ [] "connection refused" (by decide)

/-- Claim C4: a failed SetURLsInactive call leaves the pending buffer
unchanged; the next tick's call carries exactly the same keys plus any
newly arrived ones; and a key that reached the buffer stays there until a
successful call includes it, so no key is lost to a failed flush. -/
theorem C4_failed_flush_retains_buffer (buf ks : List String) (ok : Bool)
    (h : buf ≠ []) :
    flushIteration buf (FlushEvent.tick false)
      = LoopControl.continues buf (some (buf, false)) ∧
    (flushRun buf
        (FlushEvent.tick false :: (ks.map FlushEvent.recv ++ [FlushEvent.tick ok]))).2
      = [(buf, false), (buf ++ ks, ok)] ∧
    (∀ evs k, k ∈ buf →
      k ∈ (flushRun buf evs).1 ∨ ∃ c, (c, true) ∈ (flushRun buf evs).2 ∧ k ∈ c) := by
  have h1 : flushIteration buf (FlushEvent.tick false)
      = LoopControl.continues buf (some (buf, false)) := by
    simp [flushIteration, h]
  have hrecv := flushRun_recvs ks buf [FlushEvent.tick ok]
  have hne : buf ++ ks ≠ [] := fun hc => h (List.append_eq_nil.mp hc).1
  refine ⟨h1, ?_, fun evs k hk => mem_buf_flushRun evs buf k hk⟩
  cases ok with
  | true => simp [flushRun, hrecv, flushIteration, h, hne]
  | false => simp [flushRun, hrecv, flushIteration, h, hne]

/-- Witness for C4: buffer ["x"] survives a failed tick, and the next tick
flushes ["x", "y"] after "y" arrives. -/
theorem C4_failed_flush_retains_buffer_w :
    flushIteration ["x"] (FlushEvent.tick false)
      = LoopControl.continues ["x"] (some (["x"], false)) ∧
    (flushRun ["x"]
        (FlushEvent.tick false :: ([FlushEvent.recv "y"] ++ [FlushEvent.tick true]))).2
      = [(["x"], false), (["x", "y"], true)] :=
  ⟨(C4_failed_flush_retains_buffer ["x"] ["y"] true (by decide)).1,
   (C4_failed_flush_retains_buffer ["x"] ["y"] true (by decide)).2.1⟩

/-- Claim C5: on a timer tick, a non-empty buffer triggers exactly one
SetURLsInactive call carrying the whole accumulated buffer — cleared on
success, retained on failure — and an empty buffer triggers no storage
call at all. -/
theorem C5_tick_issues_one_batched_call (buf : List String) (ok : Bool) :
    flushRun buf [FlushEvent.tick ok]
      = (if buf = [] then buf else if ok then [] else buf,
         if buf = [] then [] else [(buf, ok)]) := by
  by_cases hb : buf = []
  · subst hb; cases ok <;> rfl
  · cases ok <;> simp [flushRun, flushIteration, hb]

/-- Claim C1, evaluated at its failing input: in deadWorkersBatch the
stored owner of "owned" equals the requesting user "u1", yet each of the
ten preceding not-found requests terminates one of the ten validateUser
workers, so the owned request is never consumed, nothing is forwarded, and
no SetURLsInactive call ever includes its key, however many flush ticks
follow. -/
theorem C1_owned_request_never_flushed :
    (lkNF "owned").userID = "u1" ∧
    (fanOutRun lkNF numWorkers deadWorkersBatch).1 = [] ∧
    (fanOutRun lkNF numWorkers deadWorkersBatch).2 = [⟨"owned", "u1"⟩] ∧
    ∀ ticks : List Bool, pipelineCalls lkNF deadWorkersBatch ticks = [] := by
  refine ⟨rfl, by decide, by decide, ?_⟩
  intro ticks
  have hk : (fanOutRun lkNF 10 deadWorkersBatch).1 = [] := by decide
  simp [pipelineCalls, hk, flushRun_ticks_nil]

/-- Claim C6 counterexample: two consecutive ScheduleDeletionOfBatch calls
on the same service spawn two pools of ten workers each that have no worker
in common — twenty validateUser goroutines in total — so the worker pool is
created afresh per batch rather than shared by all calls. -/
theorem C6_fresh_pool_per_call :
    (ScheduleDeletionOfBatch service₀ 2).1.length = 10 ∧
    (ScheduleDeletionOfBatch service₀
        (ScheduleDeletionOfBatch service₀ 2).2.2).1.length = 10 ∧
    ((ScheduleDeletionOfBatch service₀ 2).1.all fun h =>
      !((ScheduleDeletionOfBatch service₀
          (ScheduleDeletionOfBatch service₀ 2).2.2).1.contains h)) = true ∧
    (((ScheduleDeletionOfBatch service₀ 2).2.1
        ++ (ScheduleDeletionOfBatch service₀
            (ScheduleDeletionOfBatch service₀ 2).2.2).2.1).countP
      fun t => match t with
        | GoTask.validateWorker _ => true
        | _ => false) = 20 := by
  decide

/-- Claim C6 (amended): every ScheduleDeletionOfBatch call spawns its own
fixed pool of exactly numWorkers = 10 validateUser workers, all draining
the service's one shared deleteMsgChanIn; a subsequent call on the same
service reuses that same shared queue but allocates a disjoint fresh pool
of workers. -/
theorem C6_pool_per_call_spec (s : ServiceState) (a : Nat) :
    numWorkers = 10 ∧
    (ScheduleDeletionOfBatch s a).1.length = numWorkers ∧
    (∀ h, h ∈ (ScheduleDeletionOfBatch s a).1 → h.inputChan = s.deleteMsgChanIn) ∧
    (∀ h h₂, h ∈ (ScheduleDeletionOfBatch s a).1 →
      h₂ ∈ (ScheduleDeletionOfBatch s (ScheduleDeletionOfBatch s a).2.2).1 →
      h.outputChan ≠ h₂.outputChan) := by
  simp only [ScheduleDeletionOfBatch, deletionFanOut]
  have hs := spawnWorkers_spec s numWorkers a
  refine ⟨rfl, hs.1, fun h hm => (hs.2.2 h hm).1, ?_⟩
  intro h h₂ hm hm₂
  have hb₁ := (hs.2.2 h hm).2
  rw [hs.2.1] at hm₂
  have hb₂ := ((spawnWorkers_spec s numWorkers (a + numWorkers)).2.2 h₂ hm₂).2
  omega

/-- Witness for the amended C6: in the first batch of the concrete service,
worker channel 2 drains the shared queue (channel 0) and differs from
worker channel 12 of the second batch. -/
theorem C6_pool_per_call_spec_w :
    (⟨0, 2⟩ : WorkerHandle).inputChan = service₀.deleteMsgChanIn ∧
    (⟨0, 2⟩ : WorkerHandle).outputChan ≠ (⟨0, 12⟩ : WorkerHandle).outputChan :=
  ⟨(C6_pool_per_call_spec service₀ 2).2.2.1 ⟨0, 2⟩ (by decide),
   (C6_pool_per_call_spec service₀ 2).2.2.2 ⟨0, 2⟩ ⟨0, 12⟩ (by decide) (by decide)⟩

/-- Claim C7: NewService sizes both the deletion request queue and the
merge output channel with the configured buffer capacity, whose default is
1024; the producer's enqueue never has an error outcome, and it blocks
exactly when the queue is full and the shutdown signal has not fired. -/
theorem C7_bounded_channels (cfg : Config) (dc a : Nat) (dn : Bool)
    (queued : List ShortURLChannelMessage) (item : ShortURLChannelMessage) :
    (NewService cfg dc a).1.chanInCap = cfg.defaultChannelsBufferSize ∧
    (NewService cfg dc a).1.chanOutCap = cfg.defaultChannelsBufferSize ∧
    defaultSettings.defaultChannelsBufferSize = 1024 ∧
    StageOutcome.raisesError ∉ deletionGeneratorSend (NewService cfg dc a).1 dn queued item ∧
    (StageOutcome.blocked ∈ deletionGeneratorSend (NewService cfg dc a).1 dn queued item ↔
      dn = false ∧ ¬(queued.length < cfg.defaultChannelsBufferSize)) := by
  refine ⟨rfl, rfl, rfl, ?_, ?_⟩ <;>
    cases dn <;>
      by_cases hq : queued.length < cfg.defaultChannelsBufferSize <;>
        simp [deletionGeneratorSend, sendRaceOutcomes, NewService, hq]

/-- Claim C8: the generator enqueue, the worker forward and the fan-in
forward are each the same select race between the send and the shutdown
signal, and once the shutdown signal has fired none of them can block:
stopping — which delivers nothing, dropping the in-flight item — is always
among the possible outcomes. -/
theorem C8_sends_race_shutdown (s : ServiceState) (dn ready : Bool)
    (queuedIn : List ShortURLChannelMessage) (queuedOut : List String)
    (m : ShortURLChannelMessage) (k kf : String) :
    deletionGeneratorSend s dn queuedIn m
      = sendRaceOutcomes dn (decide (queuedIn.length < s.chanInCap)) m ∧
    validateUserForward dn ready k = sendRaceOutcomes dn ready k ∧
    deletionFanInForward s dn queuedOut kf
      = sendRaceOutcomes dn (decide (queuedOut.length < s.chanOutCap)) kf ∧
    StageOutcome.blocked ∉ deletionGeneratorSend s true queuedIn m ∧
    StageOutcome.stopped ∈ deletionGeneratorSend s true queuedIn m ∧
    StageOutcome.blocked ∉ validateUserForward true ready k ∧
    StageOutcome.stopped ∈ validateUserForward true ready k ∧
    StageOutcome.blocked ∉ deletionFanInForward s true queuedOut kf ∧
    StageOutcome.stopped ∈ deletionFanInForward s true queuedOut kf :=
  ⟨rfl, rfl, rfl,
   sendRace_done_not_blocked _ m, sendRace_done_stopped _ m,
   sendRace_done_not_blocked _ k, sendRace_done_stopped _ k,
   sendRace_done_not_blocked _ kf, sendRace_done_stopped _ kf⟩

/-- Claim C9: NewService spawns exactly one goroutine at construction —
the flush loop — and ScheduleDeletionOfBatch never spawns another flush
loop; no iteration of the flush loop exits it, and the loop's select waits
only on a received key or a timer tick (there is no shutdown alternative
among its events). -/
theorem C9_flush_loop_immortal (cfg : Config) (dc a : Nat)
    (s : ServiceState) (al : Nat) :
    (NewService cfg dc a).2.1 = [GoTask.flushDeletions] ∧
    GoTask.flushDeletions ∉ (ScheduleDeletionOfBatch s al).2.1 ∧
    (∀ buf ev, flushIteration buf ev ≠ LoopControl.exits) ∧
    (∀ ev : FlushEvent, (∃ k, ev = FlushEvent.recv k) ∨ (∃ ok, ev = FlushEvent.tick ok)) := by
  refine ⟨rfl, ?_, ?_, ?_⟩
  · simp [ScheduleDeletionOfBatch]
  · intro buf ev
    cases ev with
    | recv k => simp [flushIteration]
    | tick ok => by_cases hb : buf = [] <;> cases ok <;> simp [flushIteration, hb]
  · intro ev
    cases ev with
    | recv k => exact Or.inl ⟨k, rfl⟩
    | tick ok => exact Or.inr ⟨ok, rfl⟩

/-- Claim C10: the pipeline deduplicates nothing — a batch containing the
same owned short URL twice forwards the key twice, appends it to the
pending buffer twice, and the SetURLsInactive call of the next successful
tick carries it twice. -/
theorem C10_duplicate_keys_kept (lookup : String → LookupResult)
    (m : ShortURLChannelMessage)
    (h₁ : (lookup m.shortURL).userID = m.userID) (h₂ : m.userID ≠ "") :
    (fanOutRun lookup numWorkers [m, m]).1 = [m.shortURL, m.shortURL] ∧
    (flushRun [] [FlushEvent.recv m.shortURL, FlushEvent.recv m.shortURL]).1
      = [m.shortURL, m.shortURL] ∧
    pipelineCalls lookup [m, m] [true] = [([m.shortURL, m.shortURL], true)] := by
  have hne : ¬((lookup m.shortURL).userID = "") := by rw [h₁]; exact h₂
  have hfan : fanOutRun lookup 10 [m, m] = ([m.shortURL, m.shortURL], []) := by
    simp [fanOutRun, hne, h₁, h₂]
  refine ⟨hfan.symm ▸ rfl, rfl, ?_⟩
  simp [pipelineCalls, hfan, flushRun, flushIteration]

/-- Witness for C10: the owned short URL "owned", requested for deletion
twice by its owner, is flushed twice in one call. -/
theorem C10_duplicate_keys_kept_w :
    (fanOutRun lkNF numWorkers [⟨"owned", "u1"⟩, ⟨"owned", "u1"⟩]).1 = ["owned", "owned"] ∧
    (flushRun [] [FlushEvent.recv "owned", FlushEvent.recv "owned"]).1 = ["owned", "owned"] ∧
    pipelineCalls lkNF [⟨"owned", "u1"⟩, ⟨"owned", "u1"⟩] [true]
      = [(["owned", "owned"], true)] :=
  C10_duplicate_keys_kept lkNF ⟨"owned", "u1"⟩ (by decide) (by decide)

end UrlShortener
